import Mathlib

/-!
Verification development for the WordDumb occurrence engine
(`src/epub.py` and `src/x_ray.py`).

Python `dict`s (which preserve insertion order and have unique keys) are
embedded as association lists `List (String × α)`; `d[k] = v` updates the
first binding in place when the key is present and appends otherwise,
`del d[k]` removes the first binding, exactly as on a Python dict whose
keys are unique.  Python `str` values manipulated by index arithmetic are
embedded as `List Char`, with `s[a:b]` becoming `(s.take b).drop a`.

External collaborators that live outside this repository are parameters:
the rapidfuzz `extractOne` matcher is an oracle
`String → List String → Option String` returning the matched key (it can
only return an element of the supplied keys, and returns `none` on an
empty key list), `html.unescape` is a function parameter, the dictionary
datastore behind `get_lemma_gloss` is a function `String → List GlossRow`,
and `urllib.parse.quote` is a function parameter.
-/

/-- First-binding lookup in an association list, the semantics of reading a
Python dict key (keys are unique in a real dict). -/
def lookupKey {α : Type} : List (String × α) → String → Option α
  | [], _ => none
  | (k', v') :: rest, k => if k' == k then some v' else lookupKey rest k

/-- Python `d[k] = v`: update the first binding in place when present,
append a new binding otherwise. -/
def dictSet {α : Type} : List (String × α) → String → α → List (String × α)
  | [], k, v => [(k, v)]
  | (k', v') :: rest, k, v =>
    if k' == k then (k, v) :: rest else (k', v') :: dictSet rest k v

/-- Python `del d[k]`: remove the first binding for `k`. -/
def dictDel {α : Type} : List (String × α) → String → List (String × α)
  | [], _ => []
  | (k', v') :: rest, k =>
    if k' == k then rest else (k', v') :: dictDel rest k

/-- Python `set.add`: insert an id unless already present. -/
def insertId (s : List Nat) (n : Nat) : List Nat :=
  if s.contains n then s else s ++ [n]

/-- One X-Ray entity record of `epub.py` (`XRayEntity`): id, NER label,
representative book quote, mention count. -/
structure XRayEntity where
  id : Nat
  label : String
  quote : String
  count : Nat
  deriving DecidableEq, Repr

/-- One annotation site (`epub.py` dataclass `Occurrence`).  The Python
field `lemma` is rendered `lemmaStr` because `lemma` is a Lean keyword;
both defaults (`lemma = ""`, `entity_id = 0`) are kept. -/
structure Occurrence where
  paragraph_start : Nat
  paragraph_end : Nat
  word_start : Nat
  word_end : Nat
  lemmaStr : String := ""
  entity_id : Nat := 0
  deriving DecidableEq, Repr

/-- One row returned by `EPUB.get_lemma_gloss`:
`(short_def, full_def, example, ipa)`.  The Python tuple component
`example` is rendered `exampleStr` because `example` is a Lean keyword. -/
structure GlossRow where
  short_def : String
  full_def : String
  exampleStr : String
  ipa : String
  deriving DecidableEq, Repr

/-- The mutable state of an `EPUB` object that the occurrence engine
touches (`EPUB.__init__` in `epub.py`): the running id counter, the entity
dict, the per-file occurrence lists (a `defaultdict(list)` keyed by xhtml
path, paths embedded as strings), the removed-id set, the lemma dict and
the lemma id counter. -/
structure EPUBState where
  entity_id : Nat
  entities : List (String × XRayEntity)
  entity_occurrences : List (String × List Occurrence)
  removed_entity_ids : List Nat
  lemmas : List (String × Nat)
  lemma_id : Nat
  deriving DecidableEq, Repr

/-- The freshly constructed `EPUB` state: counters at 0, everything empty. -/
def initEPUB : EPUBState :=
  { entity_id := 0
    entities := []
    entity_occurrences := []
    removed_entity_ids := []
    lemmas := []
    lemma_id := 0 }

/-- Python `defaultdict(list)` access-and-append:
`self.entity_occurrences[xhtml_path].append(o)`. -/
def appendOcc (m : List (String × List Occurrence)) (path : String)
    (o : Occurrence) : List (String × List Occurrence) :=
  match lookupKey m path with
  | some l => dictSet m path (l ++ [o])
  | none => m ++ [(path, [o])]

/-- The occurrence list recorded for one file (empty when absent, as for a
`defaultdict(list)`). -/
def getOccs (m : List (String × List Occurrence)) (path : String) :
    List Occurrence :=
  (lookupKey m path).getD []

/-- Substring test on character lists (needle, haystack prefix test). -/
def leadsWith : List Char → List Char → Bool
  | [], _ => true
  | _ :: _, [] => false
  | a :: as, b :: bs => a == b && leadsWith as bs

/-- Python `needle in haystack` on strings: contiguous substring test. -/
def containsSub (pat : List Char) : List Char → Bool
  | [] => leadsWith pat []
  | c :: rest => leadsWith pat (c :: rest) || containsSub pat rest

/-- Modelled from the spec: `is_full_name` from the module `x_ray_share`,
which is not among the source files.  Per §4.1 of the spec the new mention
is "a more complete name than the matched key (longer, and containing the
matched key as a sub-name, given matching or compatible label)". -/
def is_full_name (matchedName : String) (matchedLabel : String)
    (newName : String) (newLabel : String) : Bool :=
  matchedName.length < newName.length
    && matchedLabel == newLabel
    && containsSub matchedName.toList newName.toList

/-- `EPUB.add_entity` (`epub.py` lines 168-219).  `oracle` stands for
rapidfuzz `extractOne(entity, self.entities.keys(), score_cutoff =
FUZZ_THRESHOLD, scorer = token_set_ratio)` and returns the matched key;
it can only return a member of the supplied key list (the branch where the
returned key is absent is unreachable and mirrors the create branch).
`custom` is the key set of `self.custom_x_ray`. -/
def EPUB.add_entity (oracle : String → List String → Option String)
    (custom : List String) (st : EPUBState) (entity nerLabel bookQuote : String)
    (pStart pEnd wStart wEnd : Nat) (xhtmlPath : String) : EPUBState :=
  let (entityId, st') :=
    match lookupKey st.entities entity with
    | some entityData =>
        (entityData.id,
         { st with entities :=
            dictSet st.entities entity { entityData with count := entityData.count + 1 } })
    | none =>
        let createNew : Nat × EPUBState :=
          (st.entity_id,
           { st with
              entities :=
                dictSet st.entities entity
                  ({ id := st.entity_id, label := nerLabel,
                     quote := bookQuote, count := 1 })
              entity_id := st.entity_id + 1 })
        if ¬ custom.contains entity then
          match oracle entity (st.entities.map Prod.fst) with
          | some matchedName =>
              match lookupKey st.entities matchedName with
              | some matchedEntity =>
                  let bumped := { matchedEntity with count := matchedEntity.count + 1 }
                  let ents := dictSet st.entities matchedName bumped
                  let ents :=
                    if is_full_name matchedName matchedEntity.label entity nerLabel then
                      dictDel (dictSet ents entity bumped) matchedName
                    else ents
                  (matchedEntity.id, { st with entities := ents })
              | none => createNew
          | none => createNew
        else createNew
  let occ : Occurrence :=
    { paragraph_start := pStart, paragraph_end := pEnd,
      word_start := wStart, word_end := wEnd, entity_id := entityId }
  { st' with entity_occurrences := appendOcc st'.entity_occurrences xhtmlPath occ }

/-- `EPUB.add_lemma` (`epub.py` lines 221-241): append the occurrence
(with the dataclass default `entity_id = 0`), then get-or-insert the lemma
into the lemma dict with the next lemma id. -/
def EPUB.add_lemma (st : EPUBState) (lemmaWord : String)
    (pStart pEnd wStart wEnd : Nat) (xhtmlPath : String) : EPUBState :=
  let occ : Occurrence :=
    { paragraph_start := pStart, paragraph_end := pEnd,
      word_start := wStart, word_end := wEnd, lemmaStr := lemmaWord }
  let st :=
    { st with entity_occurrences := appendOcc st.entity_occurrences xhtmlPath occ }
  if (lookupKey st.lemmas lemmaWord).isNone then
    { st with lemmas := dictSet st.lemmas lemmaWord st.lemma_id,
              lemma_id := st.lemma_id + 1 }
  else st

/-- The removal test of `EPUB.remove_entities`: mention count below the
minimum, no mediawiki cache entry, and not a custom X-Ray key.  `cache`
stands for `self.mediawiki.get_cache`; the Python guard
`self.mediawiki is not None` carries a `# mypy` comment and is a
type-narrowing no-op (the method runs only with a mediawiki client). -/
def removeCond (cache : String → Option String) (custom : List String)
    (minimalCount : Nat) (p : String × XRayEntity) : Bool :=
  p.2.count < minimalCount && (cache p.1).isNone && ¬ custom.contains p.1

/-- `EPUB.remove_entities` (`epub.py` lines 243-252): iterate over a copy
of the entity dict, delete every entity satisfying `removeCond` and add
its id to the removed-id set. -/
def EPUB.remove_entities (cache : String → Option String)
    (custom : List String) (st : EPUBState) (minimalCount : Nat) : EPUBState :=
  { st with
      entities := st.entities.filter (fun p => ! removeCond cache custom minimalCount p)
      removed_entity_ids :=
        (st.entities.filter (removeCond cache custom minimalCount)).foldl
          (fun s p => insertId s p.2.id) st.removed_entity_ids }

/-- One entity record of `x_ray.py` (no mention count field; counts live
in the people/terms counters). -/
structure XEntity where
  id : Nat
  label : String
  quote : String
  deriving DecidableEq, Repr

/-- The mutable state of an `X_Ray` object (`x_ray.py` `__init__`) that
the registry logic touches.  The two `Counter`s are embedded as multisets
of ids (lists; `counter[id] += 1` appends `id`), the emitted occurrence
rows as the list of `(entity_id, start, entity_len)` triples and `erl` as
an integer. -/
structure XRayState where
  entity_id : Nat
  num_people : Nat
  num_terms : Nat
  erl : Int
  entities : List (String × XEntity)
  people_counter : List Nat
  terms_counter : List Nat
  occurrences : List (Nat × Nat × Nat)
  deriving DecidableEq, Repr

/-- The freshly constructed `X_Ray` state: note `self.entity_id = 1`. -/
def X_Ray.init : XRayState :=
  { entity_id := 1
    num_people := 0
    num_terms := 0
    erl := 0
    entities := []
    people_counter := []
    terms_counter := []
    occurrences := [] }

/-- `X_Ray.insert_occurrence` (`x_ray.py` lines 63-69).  `personLabels`
stands for the constant `PERSON_LABELS` of the external `mediawiki`
module. -/
def X_Ray.insert_occurrence (personLabels : List String) (st : XRayState)
    (entityId : Nat) (nerLabel : String) (start entityLen : Nat) : XRayState :=
  let st :=
    if personLabels.contains nerLabel then
      { st with people_counter := st.people_counter ++ [entityId] }
    else
      { st with terms_counter := st.terms_counter ++ [entityId] }
  { st with
      occurrences := st.occurrences ++ [(entityId, start, entityLen)]
      erl := (start : Int) + (entityLen : Int) - 1 }

/-- `X_Ray.add_entity` (`x_ray.py` lines 71-91).  There is no exact-key
fast path, no custom-override check and no re-keying here: a fuzzy match
keeps the existing key and id, otherwise a new entity is created with the
current counter value (which starts at 1).  `oracle` stands for rapidfuzz
`extractOne(entity, self.entities.keys(), score_cutoff=FUZZ_THRESHOLD)`. -/
def X_Ray.add_entity (oracle : String → List String → Option String)
    (personLabels : List String) (st : XRayState) (entity nerLabel : String)
    (start : Nat) (quote : String) (entityLen : Nat) : XRayState :=
  let (entityId, entityLabel, st') :=
    match oracle entity (st.entities.map Prod.fst) with
    | some matchedName =>
        match lookupKey st.entities matchedName with
        | some entityData => (entityData.id, entityData.label, st)
        | none => (st.entity_id, nerLabel, st)
    | none =>
        (st.entity_id, nerLabel,
         { st with
            entities :=
              dictSet st.entities entity
                ({ id := st.entity_id, label := nerLabel, quote := quote })
            num_people :=
              if personLabels.contains nerLabel then st.num_people + 1 else st.num_people
            num_terms :=
              if personLabels.contains nerLabel then st.num_terms else st.num_terms + 1
            entity_id := st.entity_id + 1 })
  X_Ray.insert_occurrence personLabels st' entityId entityLabel start entityLen

/-- Python slice `s[a:b]` on a string embedded as a character list
(non-negative indices, out-of-range clamped). -/
def sliceL (s : List Char) (a b : Nat) : List Char :=
  (s.take b).drop a

/-- One character of Python `html.escape` (quote=True): the five
replacements performed on `&`, `<`, `>`, the double quote and the
apostrophe. -/
def pyEscapeChar (c : Char) : List Char :=
  if c == '&' then "&amp;".toList
  else if c == '<' then "&lt;".toList
  else if c == '>' then "&gt;".toList
  else if c == Char.ofNat 34 then "&quot;".toList
  else if c == Char.ofNat 39 then "&#x27;".toList
  else [c]

/-- Python `html.escape` with its default `quote=True`. -/
def pyEscape (s : List Char) : List Char :=
  s.flatMap pyEscapeChar

/-- Fuelled scan of Python `str.replace`: with fuel at least the length
of `s` (and a non-empty pattern) it replaces every left-to-right
non-overlapping occurrence of `pat` by `rep`; the fuel only makes the
recursion structural, every replacement consumes at least one character
of `s`. -/
def replaceAllFuel : Nat → List Char → List Char → List Char → List Char
  | 0, s, _, _ => s
  | fuel + 1, s, pat, rep =>
    match s with
    | [] => []
    | c :: rest =>
      if pat ≠ [] ∧ leadsWith pat (c :: rest) = true then
        rep ++ replaceAllFuel fuel ((c :: rest).drop pat.length) pat rep
      else
        c :: replaceAllFuel fuel rest pat rep

/-- Python `str.replace` for a non-empty pattern (an absent pattern
leaves the string unchanged; the code only calls it with non-empty
constant patterns). -/
def replaceAll (s pat rep : List Char) : List Char :=
  replaceAllFuel s.length s pat rep

/-- The external collaborators the rewriter and page builder call:
`unesc` is Python `html.unescape`, `gloss` is `EPUB.get_lemma_gloss`
(a read-only query against the external dictionary datastore, given the
fixed language and prefs of the run), `isCJK` is the test
`lemma_lang in CJK_LANGS` against the constant of the external `utils`
module, and `urlquote` is `urllib.parse.quote`. -/
structure RewriteCtx where
  unesc : List Char → List Char
  gloss : String → List GlossRow
  isCJK : Bool
  urlquote : List Char → List Char

/-- The X-Ray inline anchor emitted for an entity occurrence
(`epub.py` lines 330-333). -/
def xrayAnchor (entityId : Nat) (word : List Char) : List Char :=
  "<a class=\"x-ray\" epub:type=\"noteref\" href=\"x_ray.xhtml#".toList
    ++ (toString entityId).toList ++ "\">".toList ++ pyEscape word ++ "</a>".toList

/-- The Word Wise plain footnote anchor (`epub.py` lines 369-372). -/
def wwAnchor (lemmaId : Nat) (word : List Char) : List Char :=
  "<a class=\"wordwise\" epub:type=\"noteref\" href=\"word_wise.xhtml#".toList
    ++ (toString lemmaId).toList ++ "\">".toList ++ pyEscape word ++ "</a>".toList

/-- The Word Wise ruby annotation (`epub.py` lines 374-378). -/
def wwRuby (lemmaId : Nat) (word shortDef : List Char) : List Char :=
  "<ruby class=\"wordwise\"><a epub:type=\"noteref\" href=\"word_wise.xhtml#".toList
    ++ (toString lemmaId).toList ++ "\">".toList ++ pyEscape word
    ++ "</a><rp>(</rp><rt>".toList ++ pyEscape shortDef
    ++ "</rt><rp>)</rp></ruby>".toList

/-- The length-ratio heuristic `len(short_def) / len(word) > len_ratio`
with `len_ratio = 3` for CJK target languages and `2.5` otherwise,
expressed exactly over the integer lengths (the annotated word is a
non-empty text span, so the Python division is defined). -/
def glossLonger (isCJK : Bool) (sdefLen wordLen : Nat) : Bool :=
  if isCJK then 3 * wordLen < sdefLen else 5 * wordLen < 2 * sdefLen

/-- `EPUB.build_word_wise_tag` (`epub.py` lines 358-378).  Returns the
emitted fragment together with the lemma dict, which the method mutates:
a lemma that is no longer registered renders as the plain word, and a
lemma whose gloss lookup returns no rows is deleted from the dict and
also renders as the plain word. -/
def build_word_wise_tag (ctx : RewriteCtx) (lemmas : List (String × Nat))
    (lemmaWord : String) (word : List Char) : List Char × List (String × Nat) :=
  match lookupKey lemmas lemmaWord with
  | none => (word, lemmas)
  | some lemmaId =>
    match ctx.gloss lemmaWord with
    | [] => (word, dictDel lemmas lemmaWord)
    | row :: _ =>
      if glossLonger ctx.isCJK row.short_def.toList.length word.length then
        (wwAnchor lemmaId word, lemmas)
      else
        (wwRuby lemmaId word row.short_def.toList, lemmas)

/-- The loop state of `EPUB.insert_anchor_elements`: the output built so
far, the decoded text of the last paragraph entered, the word-end cursor
inside it, the raw end offset of that paragraph, and the lemma dict
(threaded because `build_word_wise_tag` mutates it). -/
structure RewriteState where
  out : List Char
  lastPText : List Char
  lastWEnd : Nat
  lastPEnd : Nat
  lemmas : List (String × Nat)

/-- One iteration of the occurrence loop of `EPUB.insert_anchor_elements`
(`epub.py` lines 314-341).  An occurrence whose entity id is in the
removed-id set is skipped outright. -/
def stepOcc (ctx : RewriteCtx) (removed : List Nat) (xhtml : List Char)
    (st : RewriteState) (o : Occurrence) : RewriteState :=
  if removed.contains o.entity_id then st
  else
    let newPara : Bool := o.paragraph_end != st.lastPEnd
    let out1 :=
      if newPara then
        st.out ++ pyEscape (st.lastPText.drop st.lastWEnd)
          ++ sliceL xhtml st.lastPEnd o.paragraph_start
      else st.out
    let w0 := if newPara then 0 else st.lastWEnd
    let ptext := ctx.unesc (sliceL xhtml o.paragraph_start o.paragraph_end)
    let out2 := out1 ++ pyEscape (sliceL ptext w0 o.word_start)
    let word := sliceL ptext o.word_start o.word_end
    let fragLem : List Char × List (String × Nat) :=
      if o.lemmaStr == "" then (xrayAnchor o.entity_id word, st.lemmas)
      else build_word_wise_tag ctx st.lemmas o.lemmaStr word
    { out := out2 ++ fragLem.1
      lastPText := if newPara then ptext else st.lastPText
      lastWEnd := o.word_end
      lastPEnd := if newPara then o.paragraph_end else st.lastPEnd
      lemmas := fragLem.2 }

/-- The body pass of `EPUB.insert_anchor_elements` over one xhtml file:
fold the occurrence loop from the empty output, then append the raw text
from the last paragraph end (`epub.py` lines 310-343; note the loop never
re-emits the decoded tail of the final annotated paragraph). -/
def rewriteRegionCore (ctx : RewriteCtx) (removed : List Nat)
    (xhtml : List Char) (occs : List Occurrence)
    (lemmas0 : List (String × Nat)) : List Char × List (String × Nat) :=
  let fin := occs.foldl (stepOcc ctx removed xhtml)
    { out := [], lastPText := [], lastWEnd := 0, lastPEnd := 0, lemmas := lemmas0 }
  (fin.out ++ xhtml.drop fin.lastPEnd, fin.lemmas)

/-- The sort key test of `sorted(occurrences, key=attrgetter(
"paragraph_start", "word_start"))`: lexicographic non-decreasing order on
`(paragraph_start, word_start)`. -/
def occLe (a b : Occurrence) : Bool :=
  Nat.blt a.paragraph_start b.paragraph_start
    || (a.paragraph_start == b.paragraph_start
        && Nat.ble a.word_start b.word_start)

/-- The occurrence list the rewrite loop actually runs over (`epub.py`
lines 303-307): sorted by `(paragraph_start, word_start)` when both the
entity dict and the lemma dict are non-empty, unsorted otherwise
(`mergeSort` is a stable sort, like Python `sorted`). -/
def processedOccs (entities : List (String × XRayEntity))
    (lemmas : List (String × Nat)) (occs : List Occurrence) : List Occurrence :=
  if entities ≠ [] ∧ lemmas ≠ [] then occs.mergeSort occLe else occs

/-- The Word Wise CSS block added when the lemma dict is non-empty
(`epub.py` lines 288-293). -/
def cssWordWise : List Char :=
  ("\n            body \x7bline-height: 2.5;\x7d\n            ruby.wordwise \x7btext-decoration: overline;\x7d\n            ruby.wordwise a \x7btext-decoration: none;\x7d\n            ").toList

/-- The CSS block added when `prefs["remove_link_styles"]` is set
(`epub.py` lines 294-300). -/
def cssNoLinkStyles : List Char :=
  ("\n            a.x-ray, a.wordwise, ruby.wordwise a \x7b\n              text-decoration: none;\n              color: inherit;\n            \x7d\n            ").toList

/-- The `css_rules` string assembled at the top of
`EPUB.insert_anchor_elements` (`epub.py` lines 287-300). -/
def cssRules (lemmas : List (String × Nat)) (removeLink : Bool) : List Char :=
  (if lemmas.length > 0 then cssWordWise else [])
    ++ (if removeLink then cssNoLinkStyles else [])

/-- The epub "ops" namespace URI (`NAMESPACES["ops"]`). -/
def opsNs : List Char := "http://www.idpf.org/2007/ops".toList

/-- The xmlns attribute searched for by the namespace injection
(`xmlns="{NAMESPACES["xml"]}"`). -/
def xmlnsOld : List Char := "xmlns=\"http://www.w3.org/1999/xhtml\"".toList

/-- The replacement carrying the epub namespace declaration. -/
def xmlnsNew : List Char :=
  "xmlns=\"http://www.w3.org/1999/xhtml\" xmlns:epub=\"http://www.idpf.org/2007/ops\"".toList

/-- The closing head tag before which CSS is injected. -/
def headClose : List Char := "</head>".toList

/-- The body pass followed by the namespace edit (`epub.py` lines
345-351): when the ops namespace URI is absent from the rewritten text,
every occurrence of the xhtml xmlns attribute is rewritten to also
declare the epub namespace. -/
def regionAfterNs (ctx : RewriteCtx) (removed : List Nat)
    (entities : List (String × XRayEntity)) (lemmas0 : List (String × Nat))
    (xhtml : List Char) (occs : List Occurrence) :
    List Char × List (String × Nat) :=
  let core := rewriteRegionCore ctx removed xhtml
    (processedOccs entities lemmas0 occs) lemmas0
  (if containsSub opsNs core.1 then core.1
   else replaceAll core.1 xmlnsOld xmlnsNew, core.2)

/-- `EPUB.insert_anchor_elements` for one xhtml file (`epub.py` lines
286-356): build the CSS rules from the lemma dict and prefs, run the body
pass over the (possibly sorted) occurrence list, apply the namespace
edit, then — when there are CSS rules — rewrite every `</head>` to a
style block followed by `</head>`.  Returns the written file text and the
lemma dict left behind by the pass. -/
def insert_anchor_region (ctx : RewriteCtx) (removed : List Nat)
    (entities : List (String × XRayEntity)) (lemmas0 : List (String × Nat))
    (removeLink : Bool) (xhtml : List Char) (occs : List Occurrence) :
    List Char × List (String × Nat) :=
  (if (cssRules lemmas0 removeLink).length > 0 then
    replaceAll (regionAfterNs ctx removed entities lemmas0 xhtml occs).1
      headClose
      ("<style>".toList ++ cssRules lemmas0 removeLink
        ++ "</style></head>".toList)
   else (regionAfterNs ctx removed entities lemmas0 xhtml occs).1,
   (regionAfterNs ctx removed entities lemmas0 xhtml occs).2)

/-- Python `lemma.rsplit("_", 1)` for a string containing an underscore:
split at the last underscore (the method is only reached in
`use_pos` mode, where every registered lemma carries a `_pos` suffix). -/
def rsplitU (s : List Char) : List Char × List Char :=
  if s.contains '_' then
    let i := s.length - 1 - (s.reverse.indexOf '_')
    (s.take i, s.drop (i + 1))
  else (s, [])

/-- `EPUB.create_ww_aside_tag` (`epub.py` lines 486-508): the footnote
aside for one lemma entry — optional part-of-speech paragraph, the first
non-empty pronunciation once, every sense's full definition, optional
example, and the Wiktionary source link built from the (possibly
pos-stripped) lemma. -/
def create_ww_aside_tag (ctx : RewriteCtx) (usePos : Bool)
    (lemmaWord : String) (lemmaId : Nat) (glossLang : String) : List Char :=
  let data := ctx.gloss lemmaWord
  let lemPos := if usePos then rsplitU lemmaWord.toList else (lemmaWord.toList, [])
  let tag0 := "<aside id=\"".toList ++ (toString lemmaId).toList
    ++ "\" epub:type=\"footnote\">".toList
  let tag1 :=
    if usePos then tag0 ++ "<p>".toList ++ lemPos.2 ++ "</p>".toList else tag0
  let step := fun (acc : List Char × Bool) (row : GlossRow) =>
    let acc1 :=
      if row.ipa ≠ "" ∧ ¬ acc.2 then
        (acc.1 ++ "<p>".toList ++ pyEscape row.ipa.toList ++ "</p>".toList, true)
      else acc
    let acc2 := (acc1.1 ++ "<p>".toList ++ pyEscape row.full_def.toList
      ++ "</p>".toList, acc1.2)
    let acc3 :=
      if row.exampleStr ≠ "" then
        (acc2.1 ++ "<p><i>".toList ++ pyEscape row.exampleStr.toList
          ++ "</i></p>".toList, acc2.2)
      else acc2
    (acc3.1 ++ "<hr/>".toList, acc3.2)
  let folded := data.foldl step (tag1, false)
  folded.1 ++ "<p>Source: <a href=\x27https://".toList ++ glossLang.toList
    ++ ".wiktionary.org/wiki/".toList ++ ctx.urlquote lemPos.1
    ++ "\x27>Wiktionary</a></p></aside>".toList

/-- The fixed page header of `EPUB.create_word_wise_footnotes`. -/
def wwHeader (lemmaLang : String) : List Char :=
  "\n        <html xmlns=\"http://www.w3.org/1999/xhtml\"\n        xmlns:epub=\"http://www.idpf.org/2007/ops\"\n        lang=\"".toList
    ++ lemmaLang.toList ++ "\" xml:lang=\"".toList ++ lemmaLang.toList
    ++ "\">\n        <head><title>Word Wise</title><meta charset=\"utf-8\"/></head>\n        <body>\n        ".toList

/-- `EPUB.create_word_wise_footnotes` (`epub.py` lines 470-484): the Word
Wise page is the header, one aside per entry of the lemma dict in
insertion order, and the closing tags. -/
def create_word_wise_footnotes (ctx : RewriteCtx) (usePos : Bool)
    (lemmas : List (String × Nat)) (lemmaLang glossLang : String) : List Char :=
  wwHeader lemmaLang
    ++ (lemmas.map (fun p => create_ww_aside_tag ctx usePos p.1 p.2 glossLang)).flatten
    ++ "</body></html>".toList

/-- Membership in the removed-id set after one `set.add`. -/
theorem mem_insertId (s : List Nat) (n i : Nat) :
    i ∈ insertId s n ↔ i ∈ s ∨ i = n := by
  unfold insertId
  split
  · next hc =>
    replace hc := List.mem_of_elem_eq_true hc
    constructor
    · exact fun h => Or.inl h
    · rintro (h | rfl)
      · exact h
      · exact hc
  · simp

/-- Membership in the removed-id set after folding `set.add` over a list
of entities. -/
theorem mem_foldl_insertId {α : Type} (f : α → Nat) (l : List α)
    (s : List Nat) (i : Nat) :
    i ∈ l.foldl (fun acc p => insertId acc (f p)) s ↔
      i ∈ s ∨ ∃ p ∈ l, f p = i := by
  induction l generalizing s with
  | nil => simp
  | cons a l ih =>
    simp only [List.foldl_cons, ih, mem_insertId, List.mem_cons]
    constructor
    · rintro ((h | h) | ⟨p, hp, hf⟩)
      · exact Or.inl h
      · exact Or.inr ⟨a, Or.inl rfl, h.symm⟩
      · exact Or.inr ⟨p, Or.inr hp, hf⟩
    · rintro (h | ⟨p, (rfl | hp), hf⟩)
      · exact Or.inl (Or.inl h)
      · exact Or.inl (Or.inr hf.symm)
      · exact Or.inr ⟨p, hp, hf⟩

/-- C10: `remove_entities` modifies only the entity map and the
removed-id set — the recorded occurrence lists of every region, the lemma
dict and lemma id counter, and the entity id counter are unchanged, and
the surviving entity entries appear verbatim (same id, label, quote and
count) as a sublist of the previous entity map. -/
theorem remove_entities_frame (cache : String → Option String)
    (custom : List String) (st : EPUBState) (minimalCount : Nat) :
    (EPUB.remove_entities cache custom st minimalCount).entity_occurrences
        = st.entity_occurrences
    ∧ (EPUB.remove_entities cache custom st minimalCount).lemmas = st.lemmas
    ∧ (EPUB.remove_entities cache custom st minimalCount).lemma_id = st.lemma_id
    ∧ (EPUB.remove_entities cache custom st minimalCount).entity_id = st.entity_id
    ∧ (EPUB.remove_entities cache custom st minimalCount).entities.Sublist st.entities
    ∧ ∀ p, p ∈ (EPUB.remove_entities cache custom st minimalCount).entities →
        p ∈ st.entities :=
  ⟨rfl, rfl, rfl, rfl, List.filter_sublist _,
   fun _ hp => (List.filter_sublist _).subset hp⟩

/-- C6: `remove_entities(min_count)` deletes exactly the entities with
`count < min_count`, no mediawiki cache entry and no custom-override
entry, records each deleted entity's id in the removed-id set, and keeps
every other entity; the removed-id set afterwards holds exactly the old
ids plus the ids of entities satisfying the removal condition. -/
theorem remove_entities_exact (cache : String → Option String)
    (custom : List String) (st : EPUBState) (minimalCount : Nat)
    (k : String) (d : XRayEntity) (hmem : (k, d) ∈ st.entities) :
    (removeCond cache custom minimalCount (k, d) = true →
        (k, d) ∉ (EPUB.remove_entities cache custom st minimalCount).entities
        ∧ d.id ∈ (EPUB.remove_entities cache custom st minimalCount).removed_entity_ids)
    ∧ (removeCond cache custom minimalCount (k, d) = false →
        (k, d) ∈ (EPUB.remove_entities cache custom st minimalCount).entities)
    ∧ (∀ i : Nat,
        i ∈ (EPUB.remove_entities cache custom st minimalCount).removed_entity_ids ↔
          i ∈ st.removed_entity_ids
          ∨ ∃ p ∈ st.entities,
              removeCond cache custom minimalCount p = true ∧ p.2.id = i) := by
  refine ⟨?_, ?_, ?_⟩
  · intro hcond
    constructor
    · simp [EPUB.remove_entities, List.mem_filter, hcond]
    · simp only [EPUB.remove_entities]
      rw [mem_foldl_insertId]
      exact Or.inr ⟨(k, d), List.mem_filter.mpr ⟨hmem, hcond⟩, rfl⟩
  · intro hcond
    simp [EPUB.remove_entities, List.mem_filter, hmem, hcond]
  · intro i
    simp only [EPUB.remove_entities]
    rw [mem_foldl_insertId]
    constructor
    · rintro (h | ⟨p, hp, hf⟩)
      · exact Or.inl h
      · rcases List.mem_filter.mp hp with ⟨hp1, hp2⟩
        exact Or.inr ⟨p, hp1, hp2, hf⟩
    · rintro (h | ⟨p, hp1, hp2, hf⟩)
      · exact Or.inl h
      · exact Or.inr ⟨p, List.mem_filter.mpr ⟨hp1, hp2⟩, hf⟩

/-- A mediawiki client whose cache is empty. -/
def cacheNone : String → Option String := fun _ => none

/-- A fuzzy-match oracle that matches the first existing key (and, like
`extractOne`, returns nothing on an empty key list). -/
def pickHead : String → List String → Option String := fun _ keys => keys.head?

/-- A concrete registry state used to instantiate hypothesised theorems:
two entities, one mentioned once, one mentioned five times. -/
def st6 : EPUBState :=
  { entity_id := 2
    entities := [("Napoleon", ⟨0, "PERSON", "q0", 1⟩), ("Paris", ⟨1, "GPE", "q1", 5⟩)]
    entity_occurrences := []
    removed_entity_ids := []
    lemmas := []
    lemma_id := 0 }

/-- Witness for C6 at a concrete input: with `min_count = 2`, an empty
cache and no custom overrides, the once-mentioned entity is deleted and
its id recorded. -/
theorem remove_entities_exact_w :
    (removeCond cacheNone [] 2 ("Napoleon", ⟨0, "PERSON", "q0", 1⟩) = true →
        ("Napoleon", (⟨0, "PERSON", "q0", 1⟩ : XRayEntity))
            ∉ (EPUB.remove_entities cacheNone [] st6 2).entities
        ∧ (⟨0, "PERSON", "q0", 1⟩ : XRayEntity).id
            ∈ (EPUB.remove_entities cacheNone [] st6 2).removed_entity_ids)
    ∧ (removeCond cacheNone [] 2 ("Napoleon", ⟨0, "PERSON", "q0", 1⟩) = false →
        ("Napoleon", (⟨0, "PERSON", "q0", 1⟩ : XRayEntity))
            ∈ (EPUB.remove_entities cacheNone [] st6 2).entities)
    ∧ (∀ i : Nat,
        i ∈ (EPUB.remove_entities cacheNone [] st6 2).removed_entity_ids ↔
          i ∈ st6.removed_entity_ids
          ∨ ∃ p ∈ st6.entities,
              removeCond cacheNone [] 2 p = true ∧ p.2.id = i) :=
  remove_entities_exact cacheNone [] st6 2 "Napoleon" ⟨0, "PERSON", "q0", 1⟩
    (by decide)

/-- C3: a surface form present in the custom-override mapping and not
already an exact registry key is never fuzzy-merged — for every oracle
(in particular one that would match an existing similar key) the call
creates a new distinct entity with the next id and appends its
occurrence. -/
theorem custom_creates_distinct_entity
    (oracle : String → List String → Option String) (custom : List String)
    (st : EPUBState) (entity nerLabel bookQuote : String)
    (pStart pEnd wStart wEnd : Nat) (xhtmlPath : String)
    (hc : custom.contains entity = true)
    (hx : lookupKey st.entities entity = none) :
    EPUB.add_entity oracle custom st entity nerLabel bookQuote
        pStart pEnd wStart wEnd xhtmlPath =
      { st with
          entities := dictSet st.entities entity
            ⟨st.entity_id, nerLabel, bookQuote, 1⟩
          entity_id := st.entity_id + 1
          entity_occurrences := appendOcc st.entity_occurrences xhtmlPath
            ⟨pStart, pEnd, wStart, wEnd, "", st.entity_id⟩ } := by
  unfold EPUB.add_entity
  rw [hx]
  have hmem : entity ∈ custom := List.mem_of_elem_eq_true hc
  simp [hmem]

/-- Witness for C3 at a concrete input: "Paris" is a custom override and
is textually similar to the registered "Pariss"; with an oracle that
matches any existing key, a fresh entity with id 1 is still created. -/
theorem custom_creates_distinct_entity_w :
    EPUB.add_entity pickHead ["Paris"]
        ({ entity_id := 1
           entities := [("Pariss", ⟨0, "GPE", "qq", 3⟩)]
           entity_occurrences := []
           removed_entity_ids := []
           lemmas := []
           lemma_id := 0 }) "Paris" "GPE" "qp" 0 9 0 5 "f" =
      { entity_id := 2
        entities := [("Pariss", ⟨0, "GPE", "qq", 3⟩), ("Paris", ⟨1, "GPE", "qp", 1⟩)]
        entity_occurrences := [("f", [⟨0, 9, 0, 5, "", 1⟩])]
        removed_entity_ids := []
        lemmas := []
        lemma_id := 0 } := by
  rw [custom_creates_distinct_entity pickHead ["Paris"] _ "Paris" "GPE" "qp"
    0 9 0 5 "f" (by decide) (by decide)]
  decide

/-- Looking up a key right after `d[k] = v` yields `v`. -/
theorem lookupKey_dictSet_self {α : Type} (m : List (String × α)) (k : String)
    (v : α) : lookupKey (dictSet m k v) k = some v := by
  induction m with
  | nil => simp [dictSet, lookupKey]
  | cons p rest ih =>
    obtain ⟨k', v'⟩ := p
    simp only [dictSet]
    split
    · simp [lookupKey]
    · next hne =>
      simp only [lookupKey, if_neg hne]
      exact ih

/-- C4 (amended): id allocation is monotonic and sequential in both
registries, but only the EPUB registry is 0-based — `EPUB.__init__` sets
the counter to 0 and an unmatched mention receives the current counter
value before it is incremented, while `X_Ray.__init__` sets the counter
to 1, so the first X-Ray entity receives id 1; surviving entities are
never renumbered by `remove_entities` (their entries survive verbatim). -/
theorem entity_ids_sequential :
    initEPUB.entity_id = 0
    ∧ (∀ (oracle : String → List String → Option String) (custom : List String)
        (st : EPUBState) (entity nerLabel bookQuote : String)
        (pStart pEnd wStart wEnd : Nat) (xhtmlPath : String),
        lookupKey st.entities entity = none →
        (custom.contains entity = true
          ∨ oracle entity (st.entities.map Prod.fst) = none) →
        (EPUB.add_entity oracle custom st entity nerLabel bookQuote
            pStart pEnd wStart wEnd xhtmlPath).entity_id = st.entity_id + 1
        ∧ lookupKey (EPUB.add_entity oracle custom st entity nerLabel bookQuote
            pStart pEnd wStart wEnd xhtmlPath).entities entity
            = some ⟨st.entity_id, nerLabel, bookQuote, 1⟩)
    ∧ X_Ray.init.entity_id = 1
    ∧ (∀ (oracle : String → List String → Option String)
        (personLabels : List String) (st : XRayState)
        (entity nerLabel : String) (start : Nat) (quote : String)
        (entityLen : Nat),
        oracle entity (st.entities.map Prod.fst) = none →
        (X_Ray.add_entity oracle personLabels st entity nerLabel start
            quote entityLen).entity_id = st.entity_id + 1
        ∧ lookupKey (X_Ray.add_entity oracle personLabels st entity nerLabel
            start quote entityLen).entities entity
            = some ⟨st.entity_id, nerLabel, quote⟩)
    ∧ (∀ (cache : String → Option String) (custom : List String)
        (st : EPUBState) (minimalCount : Nat),
        (EPUB.remove_entities cache custom st minimalCount).entities.Sublist
          st.entities) := by
  refine ⟨rfl, ?_, rfl, ?_, fun _ _ _ _ => List.filter_sublist _⟩
  · intro oracle custom st entity nerLabel bookQuote ps pe ws we path hx hor
    unfold EPUB.add_entity
    rw [hx]
    by_cases hc : entity ∈ custom
    · simp [hc, lookupKey_dictSet_self]
    · have hnone : oracle entity (st.entities.map Prod.fst) = none := by
        rcases hor with h | h
        · exact absurd (List.mem_of_elem_eq_true h) hc
        · exact h
      simp [hc, hnone, lookupKey_dictSet_self]
  · intro oracle personLabels st entity nerLabel start quote entityLen hnone
    unfold X_Ray.add_entity X_Ray.insert_occurrence
    rw [hnone]
    by_cases hp : nerLabel ∈ personLabels <;>
      simp [hp, lookupKey_dictSet_self]

/-- Witness for C4 at concrete inputs: the first EPUB entity gets id 0
and bumps the counter to 1, and the first X-Ray entity gets id 1 and
bumps the counter to 2. -/
theorem entity_ids_sequential_w :
    (EPUB.add_entity pickHead [] initEPUB "Ada" "PERSON" "qa"
        0 0 0 0 "p").entity_id = initEPUB.entity_id + 1
    ∧ lookupKey (EPUB.add_entity pickHead [] initEPUB "Ada" "PERSON" "qa"
        0 0 0 0 "p").entities "Ada"
        = some ⟨initEPUB.entity_id, "PERSON", "qa", 1⟩
    ∧ (X_Ray.add_entity pickHead ["PERSON"] X_Ray.init "Ada" "PERSON"
        0 "qa" 3).entity_id = X_Ray.init.entity_id + 1
    ∧ lookupKey (X_Ray.add_entity pickHead ["PERSON"] X_Ray.init "Ada"
        "PERSON" 0 "qa" 3).entities "Ada"
        = some ⟨X_Ray.init.entity_id, "PERSON", "qa"⟩ := by
  have h := entity_ids_sequential
  have h2 := h.2.1 pickHead [] initEPUB "Ada" "PERSON" "qa" 0 0 0 0 "p"
    (by decide) (Or.inr (by decide))
  have h4 := h.2.2.2.1 pickHead ["PERSON"] X_Ray.init "Ada" "PERSON" 0 "qa" 3
    (by decide)
  exact ⟨h2.1, h2.2, h4.1, h4.2⟩

/-- Counterexample to C4 as stated: the claim's cited `X_Ray.__init__`
sets the id counter to 1, and the first created X-Ray entity receives
id 1, not 0. -/
theorem entity_ids_zero_based_cex :
    X_Ray.init.entity_id ≠ 0
    ∧ (X_Ray.add_entity pickHead ["PERSON"] X_Ray.init "Obama" "PERSON"
        0 "qo" 5).entities = [("Obama", ⟨1, "PERSON", "qo"⟩)] := by
  decide

/-- C1 (amended): full-name promotion is directional in the EPUB
registry — with a matcher that fuzzy-matches the two Obama surface forms,
recording "Obama" then "Barack Obama" leaves a single entity re-keyed
under "Barack Obama" with id 0 and count 2, and recording "Barack Obama"
then "Obama" keeps the key "Barack Obama" (no demotion), also id 0 and
count 2.  The X-Ray registry of `x_ray.py` performs no promotion at all:
in both orders the entity keeps its first-seen key (and its id, 1). -/
theorem full_name_promotion (o : String → List String → Option String)
    (h1 : o "Obama" [] = none)
    (h2 : o "Barack Obama" ["Obama"] = some "Obama")
    (h3 : o "Barack Obama" [] = none)
    (h4 : o "Obama" ["Barack Obama"] = some "Barack Obama") :
    ((EPUB.add_entity o []
        (EPUB.add_entity o [] initEPUB "Obama" "PERSON" "q1" 0 9 0 5 "p")
        "Barack Obama" "PERSON" "q2" 10 30 0 12 "p").entities
      = [("Barack Obama", ⟨0, "PERSON", "q1", 2⟩)])
    ∧ ((EPUB.add_entity o []
        (EPUB.add_entity o [] initEPUB "Obama" "PERSON" "q1" 0 9 0 5 "p")
        "Barack Obama" "PERSON" "q2" 10 30 0 12 "p").entity_id = 1)
    ∧ ((EPUB.add_entity o []
        (EPUB.add_entity o [] initEPUB "Barack Obama" "PERSON" "q3" 0 16 0 12 "p")
        "Obama" "PERSON" "q4" 20 40 0 5 "p").entities
      = [("Barack Obama", ⟨0, "PERSON", "q3", 2⟩)])
    ∧ ((EPUB.add_entity o []
        (EPUB.add_entity o [] initEPUB "Barack Obama" "PERSON" "q3" 0 16 0 12 "p")
        "Obama" "PERSON" "q4" 20 40 0 5 "p").entity_id = 1)
    ∧ ((X_Ray.add_entity o ["PERSON"]
        (X_Ray.add_entity o ["PERSON"] X_Ray.init "Obama" "PERSON" 0 "qo" 5)
        "Barack Obama" "PERSON" 20 "qb" 12).entities
      = [("Obama", ⟨1, "PERSON", "qo"⟩)])
    ∧ ((X_Ray.add_entity o ["PERSON"]
        (X_Ray.add_entity o ["PERSON"] X_Ray.init "Barack Obama" "PERSON" 0 "qb" 12)
        "Obama" "PERSON" 20 "qo" 5).entities
      = [("Barack Obama", ⟨1, "PERSON", "qb"⟩)]) := by
  have sA : EPUB.add_entity o [] initEPUB "Obama" "PERSON" "q1" 0 9 0 5 "p"
      = { entity_id := 1
          entities := [("Obama", ⟨0, "PERSON", "q1", 1⟩)]
          entity_occurrences := [("p", [⟨0, 9, 0, 5, "", 0⟩])]
          removed_entity_ids := []
          lemmas := []
          lemma_id := 0 } := by
    unfold EPUB.add_entity
    simp +decide [initEPUB, lookupKey, dictSet, appendOcc, h1]
  have sB : EPUB.add_entity o [] initEPUB "Barack Obama" "PERSON" "q3" 0 16 0 12 "p"
      = { entity_id := 1
          entities := [("Barack Obama", ⟨0, "PERSON", "q3", 1⟩)]
          entity_occurrences := [("p", [⟨0, 16, 0, 12, "", 0⟩])]
          removed_entity_ids := []
          lemmas := []
          lemma_id := 0 } := by
    unfold EPUB.add_entity
    simp +decide [initEPUB, lookupKey, dictSet, appendOcc, h3]
  have sC : X_Ray.add_entity o ["PERSON"] X_Ray.init "Obama" "PERSON" 0 "qo" 5
      = { entity_id := 2
          num_people := 1
          num_terms := 0
          erl := 4
          entities := [("Obama", ⟨1, "PERSON", "qo"⟩)]
          people_counter := [1]
          terms_counter := []
          occurrences := [(1, 0, 5)] } := by
    unfold X_Ray.add_entity X_Ray.insert_occurrence
    simp +decide [X_Ray.init, lookupKey, dictSet, h1]
  have sD : X_Ray.add_entity o ["PERSON"] X_Ray.init "Barack Obama" "PERSON" 0 "qb" 12
      = { entity_id := 2
          num_people := 1
          num_terms := 0
          erl := 11
          entities := [("Barack Obama", ⟨1, "PERSON", "qb"⟩)]
          people_counter := [1]
          terms_counter := []
          occurrences := [(1, 0, 12)] } := by
    unfold X_Ray.add_entity X_Ray.insert_occurrence
    simp +decide [X_Ray.init, lookupKey, dictSet, h3]
  rw [sA, sB, sC, sD]
  refine ⟨?_, ?_, ?_, ?_, ?_, ?_⟩
  all_goals
    first
    | (unfold EPUB.add_entity
       simp +decide [lookupKey, dictSet, dictDel, appendOcc, is_full_name,
         containsSub, leadsWith, h2, h4])
    | (unfold X_Ray.add_entity X_Ray.insert_occurrence
       simp +decide [lookupKey, dictSet, h2, h4])

/-- Witness for C1 with the concrete matcher `pickHead` (which matches
the sole existing key, as the token-set matcher does on the two Obama
forms). -/
theorem full_name_promotion_w :
    ((EPUB.add_entity pickHead []
        (EPUB.add_entity pickHead [] initEPUB "Obama" "PERSON" "q1" 0 9 0 5 "p")
        "Barack Obama" "PERSON" "q2" 10 30 0 12 "p").entities
      = [("Barack Obama", ⟨0, "PERSON", "q1", 2⟩)])
    ∧ ((EPUB.add_entity pickHead []
        (EPUB.add_entity pickHead [] initEPUB "Obama" "PERSON" "q1" 0 9 0 5 "p")
        "Barack Obama" "PERSON" "q2" 10 30 0 12 "p").entity_id = 1)
    ∧ ((EPUB.add_entity pickHead []
        (EPUB.add_entity pickHead [] initEPUB "Barack Obama" "PERSON" "q3" 0 16 0 12 "p")
        "Obama" "PERSON" "q4" 20 40 0 5 "p").entities
      = [("Barack Obama", ⟨0, "PERSON", "q3", 2⟩)])
    ∧ ((EPUB.add_entity pickHead []
        (EPUB.add_entity pickHead [] initEPUB "Barack Obama" "PERSON" "q3" 0 16 0 12 "p")
        "Obama" "PERSON" "q4" 20 40 0 5 "p").entity_id = 1)
    ∧ ((X_Ray.add_entity pickHead ["PERSON"]
        (X_Ray.add_entity pickHead ["PERSON"] X_Ray.init "Obama" "PERSON" 0 "qo" 5)
        "Barack Obama" "PERSON" 20 "qb" 12).entities
      = [("Obama", ⟨1, "PERSON", "qo"⟩)])
    ∧ ((X_Ray.add_entity pickHead ["PERSON"]
        (X_Ray.add_entity pickHead ["PERSON"] X_Ray.init "Barack Obama" "PERSON" 0 "qb" 12)
        "Obama" "PERSON" 20 "qo" 5).entities
      = [("Barack Obama", ⟨1, "PERSON", "qb"⟩)]) :=
  full_name_promotion pickHead (by decide) (by decide) (by decide) (by decide)

/-- Counterexample to C1 as stated: in the cited `X_Ray.add_entity`,
recording "Obama" then "Barack Obama" (the second fuzzy-matching the
first) leaves the registry keyed by "Obama" — it is never re-keyed to
"Barack Obama". -/
theorem full_name_promotion_cex :
    (X_Ray.add_entity pickHead ["PERSON"]
        (X_Ray.add_entity pickHead ["PERSON"] X_Ray.init "Obama" "PERSON" 0 "qo" 5)
        "Barack Obama" "PERSON" 20 "qb" 12).entities
      = [("Obama", ⟨1, "PERSON", "qo"⟩)]
    ∧ lookupKey (X_Ray.add_entity pickHead ["PERSON"]
        (X_Ray.add_entity pickHead ["PERSON"] X_Ray.init "Obama" "PERSON" 0 "qo" 5)
        "Barack Obama" "PERSON" 20 "qb" 12).entities "Barack Obama" = none := by
  decide

/-- A key that was absent is found at the end after appending its
binding. -/
theorem lookupKey_append_of_none {α : Type} (m : List (String × α))
    (k : String) (v : α) (h : lookupKey m k = none) :
    lookupKey (m ++ [(k, v)]) k = some v := by
  induction m with
  | nil => simp [lookupKey]
  | cons p rest ih =>
    obtain ⟨k', v'⟩ := p
    simp only [lookupKey, List.cons_append] at h ⊢
    split at h
    · exact absurd h (by simp)
    · next hne => rw [if_neg hne]; exact ih h

/-- `defaultdict(list)` append extends exactly the list stored under the
touched path. -/
theorem getOccs_appendOcc (m : List (String × List Occurrence))
    (path : String) (o : Occurrence) :
    getOccs (appendOcc m path o) path = getOccs m path ++ [o] := by
  unfold appendOcc getOccs
  cases hl : lookupKey m path with
  | some l => rw [lookupKey_dictSet_self]; simp
  | none => rw [lookupKey_append_of_none m path [o] hl]; simp

/-- A skipped-occurrence fold leaves the loop state untouched. -/
theorem foldl_stepOcc_skip (ctx : RewriteCtx) (removed : List Nat)
    (xhtml : List Char) (occs : List Occurrence) (s0 : RewriteState)
    (h : ∀ o ∈ occs, removed.contains o.entity_id = true) :
    occs.foldl (stepOcc ctx removed xhtml) s0 = s0 := by
  induction occs generalizing s0 with
  | nil => rfl
  | cons o rest ih =>
    have hs : stepOcc ctx removed xhtml s0 o = s0 := by
      unfold stepOcc
      rw [if_pos (h o (List.mem_cons_self o rest))]
    rw [List.foldl_cons, hs]
    exact ih s0 (fun o' ho' => h o' (List.mem_cons_of_mem o ho'))

/-- C9: every occurrence created by `add_lemma` carries the dataclass
default `entity_id = 0`, which is also the id the 0-based EPUB counter
gives the first real entity; consequently, when id 0 is in the removed-id
set the rewrite loop skips every lemma occurrence of a region — whatever
gloss rows the dictionary would resolve — and reproduces the region text
unchanged. -/
theorem add_lemma_entity_id_zero (st : EPUBState) (lemmaWord : String)
    (pStart pEnd wStart wEnd : Nat) (path : String) (ctx : RewriteCtx)
    (removed : List Nat) (xhtml : List Char) (occs : List Occurrence)
    (lemmas0 : List (String × Nat))
    (hocc : ∀ o ∈ occs, o.entity_id = 0)
    (hrm : removed.contains 0 = true) :
    initEPUB.entity_id = 0
    ∧ getOccs (EPUB.add_lemma st lemmaWord pStart pEnd wStart wEnd
        path).entity_occurrences path
        = getOccs st.entity_occurrences path
            ++ [⟨pStart, pEnd, wStart, wEnd, lemmaWord, 0⟩]
    ∧ rewriteRegionCore ctx removed xhtml occs lemmas0 = (xhtml, lemmas0) := by
  refine ⟨rfl, ?_, ?_⟩
  · unfold EPUB.add_lemma
    dsimp only
    split
    · exact getOccs_appendOcc st.entity_occurrences path _
    · exact getOccs_appendOcc st.entity_occurrences path _
  · unfold rewriteRegionCore
    rw [foldl_stepOcc_skip ctx removed xhtml occs _
      (fun o ho => by rw [hocc o ho]; exact hrm)]
    simp

/-- A rewrite context with an identity decoder and a dictionary that
resolves every lemma to one gloss row. -/
def ctxGloss : RewriteCtx :=
  { unesc := id
    gloss := fun _ => [⟨"gd", "gf", "ge", "gi"⟩]
    isCJK := false
    urlquote := id }

/-- Witness for C9 at a concrete input: one lemma occurrence with the
default id 0, removed-id set `[0]`, a resolvable gloss — the region text
comes back unchanged. -/
theorem add_lemma_entity_id_zero_w :
    initEPUB.entity_id = 0
    ∧ getOccs (EPUB.add_lemma initEPUB "run" 3 8 0 2 "f").entity_occurrences "f"
        = getOccs initEPUB.entity_occurrences "f" ++ [⟨3, 8, 0, 2, "run", 0⟩]
    ∧ rewriteRegionCore ctxGloss [0] "<p>I run.</p>".toList
        [⟨3, 8, 2, 5, "run", 0⟩] [("run", 0)]
        = ("<p>I run.</p>".toList, [("run", 0)]) :=
  add_lemma_entity_id_zero initEPUB "run" 3 8 0 2 "f" ctxGloss [0]
    "<p>I run.</p>".toList [⟨3, 8, 2, 5, "run", 0⟩] [("run", 0)]
    (by decide) (by decide)

/-- A key outside an association list's key set is not found. -/
theorem lookupKey_eq_none_of_not_mem {α : Type} (m : List (String × α))
    (k : String) (h : k ∉ m.map Prod.fst) : lookupKey m k = none := by
  induction m with
  | nil => rfl
  | cons p rest ih =>
    obtain ⟨k', v'⟩ := p
    simp only [List.map_cons, List.mem_cons] at h
    push_neg at h
    simp only [lookupKey]
    rw [if_neg]
    · exact ih h.2
    · intro hbeq
      exact h.1 (beq_iff_eq.mp hbeq).symm

/-- With unique keys, every entry surviving `del d[k]` has a key other
than `k`. -/
theorem mem_dictDel_ne {α : Type} (m : List (String × α)) (k : String)
    (hnd : (m.map Prod.fst).Nodup) :
    ∀ p ∈ dictDel m k, p.1 ≠ k := by
  induction m with
  | nil => intro p hp; simp [dictDel] at hp
  | cons q rest ih =>
    obtain ⟨k', v'⟩ := q
    simp only [List.map_cons, List.nodup_cons] at hnd
    intro p hp
    simp only [dictDel] at hp
    split at hp
    · next hbeq =>
      have hk : k' = k := beq_iff_eq.mp hbeq
      intro hpk
      exact hnd.1 (hk ▸ hpk ▸ List.mem_map_of_mem Prod.fst hp)
    · next hbeq =>
      rcases List.mem_cons.mp hp with rfl | hp'
      · intro hpk
        exact hbeq (beq_iff_eq.mpr hpk)
      · exact ih hnd.2 p hp'

/-- With unique keys, the deleted key is gone. -/
theorem lookupKey_dictDel_self {α : Type} (m : List (String × α))
    (k : String) (hnd : (m.map Prod.fst).Nodup) :
    lookupKey (dictDel m k) k = none := by
  apply lookupKey_eq_none_of_not_mem
  intro hmem
  rcases List.mem_map.mp hmem with ⟨p, hp, hpk⟩
  exact mem_dictDel_ne m k hnd p hp hpk

/-- C7: a registered lemma whose gloss lookup yields zero rows is removed
from the lemma dict by `build_word_wise_tag` and its occurrence site is
rendered as the plain word; any later occurrence of the same lemma also
renders plain (the dict no longer holds it); after the removal no dict
entry carries that lemma, so the Word Wise page — one aside per dict
entry — contains no aside for it (filtering its entries away changes
nothing). -/
theorem lemma_without_gloss_dropped (ctx : RewriteCtx)
    (lemmas : List (String × Nat)) (l : String) (i : Nat)
    (word word2 : List Char) (usePos : Bool) (lemmaLang glossLang : String)
    (hlk : lookupKey lemmas l = some i)
    (hg : ctx.gloss l = [])
    (hnd : (lemmas.map Prod.fst).Nodup) :
    build_word_wise_tag ctx lemmas l word = (word, dictDel lemmas l)
    ∧ build_word_wise_tag ctx (dictDel lemmas l) l word2 = (word2, dictDel lemmas l)
    ∧ (∀ p ∈ dictDel lemmas l, p.1 ≠ l)
    ∧ create_word_wise_footnotes ctx usePos (dictDel lemmas l) lemmaLang glossLang
        = create_word_wise_footnotes ctx usePos
            ((dictDel lemmas l).filter (fun p => p.1 != l)) lemmaLang glossLang := by
  have hne := mem_dictDel_ne lemmas l hnd
  refine ⟨?_, ?_, hne, ?_⟩
  · unfold build_word_wise_tag
    rw [hlk, hg]
  · unfold build_word_wise_tag
    rw [lookupKey_dictDel_self lemmas l hnd]
  · rw [List.filter_eq_self.mpr]
    intro p hp
    simpa using hne p hp

/-- A rewrite context whose dictionary resolves no lemma at all. -/
def ctxNoGloss : RewriteCtx :=
  { unesc := id
    gloss := fun _ => []
    isCJK := false
    urlquote := id }

/-- Witness for C7 at a concrete input: registry `{run: 0, walk: 1}`,
no gloss rows for "run". -/
theorem lemma_without_gloss_dropped_w :
    build_word_wise_tag ctxNoGloss [("run", 0), ("walk", 1)] "run" "run".toList
        = ("run".toList, dictDel [("run", 0), ("walk", 1)] "run")
    ∧ build_word_wise_tag ctxNoGloss (dictDel [("run", 0), ("walk", 1)] "run")
        "run" "ran".toList
        = ("ran".toList, dictDel [("run", 0), ("walk", 1)] "run")
    ∧ (∀ p ∈ dictDel [("run", 0), ("walk", 1)] "run", p.1 ≠ "run")
    ∧ create_word_wise_footnotes ctxNoGloss false
        (dictDel [("run", 0), ("walk", 1)] "run") "en" "en"
        = create_word_wise_footnotes ctxNoGloss false
            ((dictDel [("run", 0), ("walk", 1)] "run").filter
              (fun p => p.1 != "run")) "en" "en" :=
  lemma_without_gloss_dropped ctxNoGloss [("run", 0), ("walk", 1)] "run" 0
    "run".toList "ran".toList false "en" "en" (by decide) rfl (by decide)

/-- The occurrence sort key test is transitive. -/
theorem occLe_trans : ∀ a b c : Occurrence,
    occLe a b = true → occLe b c = true → occLe a c = true := by
  intro a b c h1 h2
  simp only [occLe, Bool.or_eq_true, Bool.and_eq_true, Nat.blt_eq,
    Nat.ble_eq, beq_iff_eq] at h1 h2 ⊢
  omega

/-- The occurrence sort key test is total. -/
theorem occLe_total : ∀ a b : Occurrence,
    (occLe a b || occLe b a) = true := by
  intro a b
  simp only [occLe, Bool.or_eq_true, Bool.and_eq_true, Nat.blt_eq,
    Nat.ble_eq, beq_iff_eq]
  omega

/-- C5: when both the entity dict and the lemma dict are non-empty, the
occurrence list the rewrite pass consumes (`processedOccs`, which
`regionAfterNs`/`insert_anchor_region` feed to `rewriteRegionCore`) is
the region's occurrence list sorted by `(paragraph_start, word_start)`:
it is pairwise non-decreasing under that key and a permutation of the
recorded list. -/
theorem merged_occurrences_sorted (entities : List (String × XRayEntity))
    (lemmas : List (String × Nat)) (occs : List Occurrence)
    (he : entities ≠ []) (hl : lemmas ≠ []) :
    processedOccs entities lemmas occs = occs.mergeSort occLe
    ∧ List.Pairwise (fun a b => occLe a b = true)
        (processedOccs entities lemmas occs)
    ∧ (processedOccs entities lemmas occs).Perm occs := by
  have hps : processedOccs entities lemmas occs = occs.mergeSort occLe := by
    unfold processedOccs
    rw [if_pos ⟨he, hl⟩]
  refine ⟨hps, ?_, ?_⟩
  · rw [hps]
    exact List.sorted_mergeSort occLe_trans occLe_total occs
  · rw [hps]
    exact List.mergeSort_perm occs occLe

/-- Witness for C5 at a concrete input: two occurrences recorded out of
reading order are processed in `(paragraph_start, word_start)` order. -/
theorem merged_occurrences_sorted_w :
    processedOccs [("Ab", ⟨0, "PERSON", "q", 1⟩)] [("run", 0)]
        [⟨10, 20, 0, 2, "", 0⟩, ⟨0, 8, 1, 3, "run", 0⟩]
      = ([⟨10, 20, 0, 2, "", 0⟩, ⟨0, 8, 1, 3, "run", 0⟩] :
          List Occurrence).mergeSort occLe
    ∧ List.Pairwise (fun a b => occLe a b = true)
        (processedOccs [("Ab", ⟨0, "PERSON", "q", 1⟩)] [("run", 0)]
          [⟨10, 20, 0, 2, "", 0⟩, ⟨0, 8, 1, 3, "run", 0⟩])
    ∧ (processedOccs [("Ab", ⟨0, "PERSON", "q", 1⟩)] [("run", 0)]
        [⟨10, 20, 0, 2, "", 0⟩, ⟨0, 8, 1, 3, "run", 0⟩]).Perm
        [⟨10, 20, 0, 2, "", 0⟩, ⟨0, 8, 1, 3, "run", 0⟩] :=
  merged_occurrences_sorted [("Ab", ⟨0, "PERSON", "q", 1⟩)] [("run", 0)]
    [⟨10, 20, 0, 2, "", 0⟩, ⟨0, 8, 1, 3, "run", 0⟩] (by decide) (by decide)

/-- C2, evaluated at the failing input: rewriting the region
`<p>Ab cd</p>` with the single entity occurrence `Ab` (paragraph
`[3, 8)`, word `[0, 2)`) loses the uncovered paragraph tail ` cd` — the
loop never re-emits `escape(last_p_text[last_w_end:])` after the final
occurrence, and the closing append starts at the paragraph end offset. -/
theorem rewriter_drops_final_paragraph_tail :
    insert_anchor_region ctxNoGloss [] [("Ab", ⟨0, "PERSON", "q", 1⟩)] []
        false "<p>Ab cd</p>".toList [⟨3, 8, 0, 2, "", 0⟩]
      = (("<p><a class=\"x-ray\" epub:type=\"noteref\" "
          ++ "href=\"x_ray.xhtml#0\">Ab</a></p>").toList, [])
    ∧ containsSub " cd".toList
        (insert_anchor_region ctxNoGloss [] [("Ab", ⟨0, "PERSON", "q", 1⟩)] []
          false "<p>Ab cd</p>".toList [⟨3, 8, 0, 2, "", 0⟩]).1 = false := by
  decide

/-- The fuelled `str.replace` scan with an absent pattern is the
identity, whatever the fuel. -/
theorem replaceAllFuel_of_not_contains (pat rep : List Char) (fuel : Nat)
    (s : List Char) (h : containsSub pat s = false) :
    replaceAllFuel fuel s pat rep = s := by
  induction fuel generalizing s with
  | zero => rfl
  | succ fuel ih =>
    cases s with
    | nil => rfl
    | cons c rest =>
      simp only [containsSub, Bool.or_eq_false_iff] at h
      rw [replaceAllFuel, if_neg, ih rest h.2]
      intro hcond
      rw [hcond.2] at h
      exact Bool.false_ne_true h.1.symm

/-- Python `str.replace` with an absent pattern is the identity. -/
theorem replaceAll_of_not_contains (s pat rep : List Char)
    (h : containsSub pat s = false) : replaceAll s pat rep = s :=
  replaceAllFuel_of_not_contains pat rep s.length s h

/-- C8 (amended): when the rewritten region text contains no `</head>`
marker, the CSS injection step of `insert_anchor_elements` is a silent
no-op — `str.replace` finds no occurrence and returns the text unchanged
— so the region is written without the style block and no error is
raised (the same holds for the namespace edit, which also uses
`str.replace`). -/
theorem missing_head_skips_css (ctx : RewriteCtx) (removed : List Nat)
    (entities : List (String × XRayEntity)) (lemmas0 : List (String × Nat))
    (removeLink : Bool) (xhtml : List Char) (occs : List Occurrence)
    (h : containsSub headClose
        (regionAfterNs ctx removed entities lemmas0 xhtml occs).1 = false) :
    insert_anchor_region ctx removed entities lemmas0 removeLink xhtml occs
      = regionAfterNs ctx removed entities lemmas0 xhtml occs := by
  unfold insert_anchor_region
  by_cases hc : (cssRules lemmas0 removeLink).length > 0
  · rw [if_pos hc, replaceAll_of_not_contains _ _ _ h]
  · rw [if_neg hc]

/-- Witness for C8's amended claim at a concrete input: a region with no
`</head>`, a non-empty lemma dict (so CSS rules exist). -/
theorem missing_head_skips_css_w :
    insert_anchor_region ctxNoGloss [] [] [("run", 0)] false
        "<body><p>hi</p></body>".toList []
      = regionAfterNs ctxNoGloss [] [] [("run", 0)]
          "<body><p>hi</p></body>".toList [] :=
  missing_head_skips_css ctxNoGloss [] [] [("run", 0)] false
    "<body><p>hi</p></body>".toList [] (by decide)

set_option maxRecDepth 4000 in
/-- Counterexample to C8 as stated: with CSS rules required (non-empty
lemma dict) and no `</head>` in the region, the rewriter produces the
region text unchanged — no style block is injected and no error of any
kind is raised (the embedded pass is a total function, like the Python
code path, which has no raise statement). -/
theorem missing_head_error_cex :
    insert_anchor_region ctxNoGloss [] [] [("run", 0)] false
        "<body><p>hi</p></body>".toList []
      = ("<body><p>hi</p></body>".toList, [("run", 0)])
    ∧ containsSub "<style>".toList
        (insert_anchor_region ctxNoGloss [] [] [("run", 0)] false
          "<body><p>hi</p></body>".toList []).1 = false := by
  decide
